import Mathlib

/-!
Verification of `app.js` (HNG13 stage 1 web server)

A shallow embedding of the single source file `src/app.js`:

* `PORT`   : `const PORT = process.env.PORT || 3000;`
* `rootHandler` : the callback of `app.get('/', ...)`, which sends one template literal
* `app`    : the routes registered on the express application
* `main`   : `app.listen(PORT, '0.0.0.0', () => console.log(...))`

JavaScript values are modelled by `JSValue`; the JavaScript runtime functions the program
calls but does not define (`Date.prototype.toLocaleString`, the clock) are parameters.
-/

namespace App

/-! ## JavaScript values -/

/-- The JavaScript values that occur in `app.js`: `undefined` (an absent property of
`process.env`), strings (every present property of `process.env` is a string) and
integral numbers (the literal `3000`). -/
inductive JSValue where
  | undefined : JSValue
  | str (s : String) : JSValue
  | num (n : Int) : JSValue
  deriving DecidableEq, Repr

namespace JSValue

/-- ECMAScript `ToBoolean`: `undefined`, the empty string and `0` are falsy. -/
def truthy : JSValue → Bool
  | undefined => false
  | str s => s != ""
  | num n => n != 0

/-- The JavaScript operator `a || b`: `a` when `a` is truthy, otherwise `b`. -/
def or (a b : JSValue) : JSValue :=
  if a.truthy then a else b

/-- ECMAScript `ToString` as used by a template literal substitution, for integral numbers
in the range printed without an exponent. -/
def toJSString : JSValue → String
  | undefined => "undefined"
  | str s => s
  | num n => toString n

end JSValue

/-- The process environment: a partial map from variable names to strings. -/
abbrev Env := String → Option String

/-- Property access `process.env.NAME`: the string when present, else `undefined`. -/
def Env.get (env : Env) (name : String) : JSValue :=
  match env name with
  | some s => JSValue.str s
  | none => JSValue.undefined

/-- Line 3: `const PORT = process.env.PORT || 3000;`. -/
def PORT (env : Env) : JSValue :=
  JSValue.or (env.get "PORT") (JSValue.num 3000)

/-! ## The template literal of the root handler -/

/-- The text of the template literal before its one substitution `${...}`, line by line
(lines 6 to 36 of `app.js`). -/
def templateHeadLines : List String := [
    "\n",
    "    <!DOCTYPE html>\n",
    "    <html>\n",
    "    <head>\n",
    "      <title>HNG13 Stage 1</title>\n",
    "      <style>\n",
    "        body \x7b\n",
    "          font-family: Arial, sans-serif;\n",
    "          display: flex;\n",
    "          justify-content: center;\n",
    "          align-items: center;\n",
    "          height: 100vh;\n",
    "          margin: 0;\n",
    "          background: linear-gradient(135deg, #667eea 0%, #764ba2 100%);\n",
    "          color: white;\n",
    "        \x7d\n",
    "        .container \x7b\n",
    "          text-align: center;\n",
    "          padding: 2rem;\n",
    "          background: rgba(255, 255, 255, 0.1);\n",
    "          border-radius: 10px;\n",
    "        \x7d\n",
    "      </style>\n",
    "    </head>\n",
    "    <body>\n",
    "      <div class=\"container\">\n",
    "        <h1>HNG13 Stage 1 DevOps Task</h1>\n",
    "        <p>Name: Chuye Princely Tata</p>\n",
    "        <p>Slack Username: @PrincelyT</p>\n",
    "        <p>Application successfully deployed!</p>\n",
    "        <p>Timestamp: "]

/-- The text of the template literal after the substitution (lines 36 to 40). -/
def templateTailLines : List String := [
    "</p>\n",
    "      </div>\n",
    "    </body>\n",
    "    </html>\n",
    "  "]

/-- Text of the template literal up to the substitution. -/
def templateHead : String := String.join templateHeadLines

/-- Text of the template literal from the substitution on. -/
def templateTail : String := String.join templateTailLines

/-- The template literal of lines 6 to 40, given the string its substitution evaluates to. -/
def template (ts : String) : String :=
  templateHead ++ ts ++ templateTail

/-! ## Requests, responses and the handler -/

/-- An incoming HTTP request: method and path. The handler reads neither. -/
structure Request where
  method : String
  path : String
  deriving DecidableEq, Repr

/-- The response object handed to a handler. -/
structure Response where
  statusCode : Nat
  headers : List (String × String)
  body : Option String
  deriving DecidableEq, Repr

/-- Value of a response header, if set. -/
def Response.header (res : Response) (name : String) : Option String :=
  (res.headers.find? (fun kv => kv.1 == name)).map Prod.snd

/-- Modelled from the spec: the response object express hands to a handler before the
handler runs; express is not part of `src/`. The status is the success status 200, no
header is set and nothing has been sent. -/
def Response.fresh : Response :=
  { statusCode := 200, headers := [], body := none }

/-- Modelled from the spec: the express method `res.send` applied to a string, which is not
part of `src/`. It keeps the status, labels the body `text/html` unless the handler chose a
content type itself, and sends the string as the body. -/
def Response.send (res : Response) (body : String) : Response :=
  { res with
    headers :=
      match res.header "Content-Type" with
      | some _ => res.headers
      | none => res.headers ++ [("Content-Type", "text/html")]
    body := some body }

/-- The JavaScript runtime as far as the handler uses it: the reading of the clock at the
moment of the call (`new Date()`, milliseconds since the epoch) and the locale-dependent
formatter `Date.prototype.toLocaleString`. -/
structure Runtime where
  now : Int
  toLocaleString : Int → String

/-- The expression `new Date().toLocaleString()` of line 36. -/
def Runtime.timestamp (rt : Runtime) : String :=
  rt.toLocaleString rt.now

/-- Lines 5 to 41: the arrow function `(req, res) => ...` whose body is the one statement
`res.send(...)` on the template literal. -/
def rootHandler (rt : Runtime) (_req : Request) (res : Response) : Response :=
  res.send (template rt.timestamp)

/-- A registered route. -/
structure Route where
  method : String
  path : String
  handler : Runtime → Request → Response → Response

/-- The routes registered on `app`: the one call `app.get('/', ...)` of line 5. -/
def app : List Route :=
  [{ method := "GET", path := "/", handler := rootHandler }]

/-- Whether a route answers a request. -/
def Route.accepts (r : Route) (req : Request) : Bool :=
  r.method == req.method && r.path == req.path

/-- Modelled from the spec: the dispatch of express, which is not part of `src/`. The first
registered route that accepts the request runs on a fresh response; a request no route
accepts falls through to the default not-found response. -/
def dispatch (routes : List Route) (rt : Runtime) (req : Request) : Response :=
  match routes.find? (fun r => r.accepts req) with
  | some r => r.handler rt req Response.fresh
  | none => { statusCode := 404, headers := [], body := none }

/-- The response of the application to a request. -/
def respond (rt : Runtime) (req : Request) : Response :=
  dispatch app rt req

/-- The request `GET /`. -/
def getRoot : Request := { method := "GET", path := "/" }

/-! ## Startup -/

/-- The arguments of a call of `app.listen(port, host, callback)`; the callback is
represented by the lines it writes with `console.log`. -/
structure ListenCall where
  port : JSValue
  host : String
  callback : Unit → List String

/-- Lines 43 to 45: `app.listen(PORT, '0.0.0.0', callback)`, where the callback is the one
statement `console.log` of the template literal "Server running on port " followed by the
substitution of `PORT`. -/
def main (env : Env) : ListenCall :=
  { port := PORT env
    host := "0.0.0.0"
    callback := fun _ => ["Server running on port " ++ (PORT env).toJSString] }

/-- Modelled from the spec: how the runtime's `listen`, which is not part of `src/`, treats
the callback on a successful startup. The spec says that on a successful bind a single
informational log line is emitted: the callback runs once, and the log of the startup is
what that one run writes. A failed bind is fatal and is not modelled. -/
def startupLog (env : Env) : List String :=
  (main env).callback ()

/-! ## Specification vocabulary -/

/-- The string `lit` occurs in `s`. -/
def Contains (s lit : String) : Prop :=
  ∃ a b : String, s = a ++ lit ++ b

/-- The text between the fixed head and the fixed tail of a rendered body. -/
def timestampField (body : String) : String :=
  String.mk ((body.data.drop templateHead.length).take
    (body.length - templateHead.length - templateTail.length))

/-- An environment in which only `PORT` is set, to `s`. -/
def envPort (s : String) : Env :=
  fun name => if name = "PORT" then some s else none

/-- An environment with no variable set. -/
def envEmpty : Env := fun _ => none

/-- Text that is an optionally signed, non-empty run of decimal digits. -/
def isIntegerText (s : String) : Bool :=
  match s.data with
  | '-' :: ds => !ds.isEmpty && ds.all Char.isDigit
  | ds => !ds.isEmpty && ds.all Char.isDigit

/-! ## Auxiliary lemmas -/

theorem join_append (xs ys : List String) :
    String.join (xs ++ ys) = String.join xs ++ String.join ys := by
  apply String.ext
  simp [String.data_join, String.data_append]

theorem contains_of_join (xs ys : List String) (a lit b : String) :
    Contains (String.join (xs ++ (a ++ lit ++ b) :: ys)) lit := by
  refine ⟨String.join xs ++ a, b ++ String.join ys, ?_⟩
  have h : xs ++ (a ++ lit ++ b) :: ys = xs ++ ([a ++ lit ++ b] ++ ys) := rfl
  rw [h, join_append, join_append]
  apply String.ext
  simp [String.data_join, String.data_append]

theorem template_injective (ts₁ ts₂ : String) (h : template ts₁ = template ts₂) :
    ts₁ = ts₂ := by
  have hd := congrArg String.data h
  simp only [template, String.data_append, List.append_assoc] at hd
  exact String.ext (List.append_cancel_right (List.append_cancel_left hd))

theorem timestampField_template (ts : String) : timestampField (template ts) = ts := by
  apply String.ext
  simp only [timestampField, template, String.data_append, String.length,
    List.append_assoc, List.drop_left, List.length_append]
  have hn : templateHead.data.length + (ts.data.length + templateTail.data.length)
      - templateHead.data.length - templateTail.data.length = ts.data.length := by omega
  rw [hn, List.take_left]

theorem PORT_eq (env : Env) :
    PORT env = match env "PORT" with
      | none => JSValue.num 3000
      | some s => if s = "" then JSValue.num 3000 else JSValue.str s := by
  unfold PORT Env.get JSValue.or
  cases h : env "PORT" with
  | none => simp [JSValue.truthy]
  | some s => by_cases hs : s = "" <;> simp [JSValue.truthy, hs]

theorem contains_head (lit ts : String) (h : Contains templateHead lit) :
    Contains (template ts) lit := by
  obtain ⟨a, b, hab⟩ := h
  refine ⟨a, b ++ ts ++ templateTail, ?_⟩
  apply String.ext
  simp [template, hab, String.data_append]

theorem head_contains_line (k : Nat) (a lit b : String)
    (h : templateHeadLines = templateHeadLines.take k
      ++ (a ++ lit ++ b) :: templateHeadLines.drop (k + 1)) :
    Contains templateHead lit := by
  have hj := contains_of_join (templateHeadLines.take k) (templateHeadLines.drop (k + 1))
    a lit b
  rw [← h] at hj
  exact hj

theorem head_contains_heading : Contains templateHead "HNG13 Stage 1 DevOps Task" :=
  head_contains_line 26 "        <h1>" _ "</h1>\n" (by rfl)

theorem head_contains_name : Contains templateHead "Chuye Princely Tata" :=
  head_contains_line 27 "        <p>Name: " _ "</p>\n" (by rfl)

theorem head_contains_handle : Contains templateHead "@PrincelyT" :=
  head_contains_line 28 "        <p>Slack Username: " _ "</p>\n" (by rfl)

theorem head_contains_deployed : Contains templateHead "Application successfully deployed!" :=
  head_contains_line 29 "        <p>" _ "</p>\n" (by rfl)

theorem head_content_block :
    templateHead = String.join (templateHeadLines.take 26) ++ "        "
      ++ "<h1>HNG13 Stage 1 DevOps Task</h1>" ++ "\n        "
      ++ "<p>Name: Chuye Princely Tata</p>" ++ "\n        "
      ++ "<p>Slack Username: @PrincelyT</p>" ++ "\n        "
      ++ "<p>Application successfully deployed!</p>" ++ "\n        "
      ++ "<p>Timestamp: " := by
  have hsplit : templateHeadLines = templateHeadLines.take 26 ++ templateHeadLines.drop 26 :=
    (List.take_append_drop 26 templateHeadLines).symm
  have hblock : String.join (templateHeadLines.drop 26) = "        "
      ++ "<h1>HNG13 Stage 1 DevOps Task</h1>" ++ "\n        "
      ++ "<p>Name: Chuye Princely Tata</p>" ++ "\n        "
      ++ "<p>Slack Username: @PrincelyT</p>" ++ "\n        "
      ++ "<p>Application successfully deployed!</p>" ++ "\n        "
      ++ "<p>Timestamp: " := by rfl
  have hjoin : templateHead
      = String.join (templateHeadLines.take 26) ++ String.join (templateHeadLines.drop 26) := by
    rw [← join_append, ← hsplit]
    rfl
  rw [hjoin, hblock]
  apply String.ext
  simp only [String.data_append, List.append_assoc]

theorem accepts_path (r : Route) (req : Request) (h : r.accepts req = true) :
    r.path = req.path := by
  unfold Route.accepts at h
  simp only [Bool.and_eq_true, beq_iff_eq] at h
  exact h.2

/-! ## The claims -/

/-- C1: for every request and every reading of the clock, the body sent by the root handler
contains each of the literal strings "HNG13 Stage 1 DevOps Task", "Chuye Princely Tata",
"@PrincelyT" and "Application successfully deployed!". -/
theorem root_body_contains_literals (rt : Runtime) (req : Request) (res : Response) :
    ∃ body, (rootHandler rt req res).body = some body
      ∧ Contains body "HNG13 Stage 1 DevOps Task"
      ∧ Contains body "Chuye Princely Tata"
      ∧ Contains body "@PrincelyT"
      ∧ Contains body "Application successfully deployed!" :=
  ⟨template rt.timestamp, rfl,
    contains_head _ _ head_contains_heading,
    contains_head _ _ head_contains_name,
    contains_head _ _ head_contains_handle,
    contains_head _ _ head_contains_deployed⟩

/-- C2: every request `GET /` is answered by the root handler with status 200 and a
`Content-Type` header of value `text/html`. -/
theorem root_status_and_content_type (rt : Runtime) (req : Request)
    (hm : req.method = "GET") (hp : req.path = "/") :
    respond rt req = rootHandler rt req Response.fresh
      ∧ (respond rt req).statusCode = 200
      ∧ (respond rt req).header "Content-Type" = some "text/html" := by
  obtain ⟨m, p⟩ := req
  simp only at hm hp
  subst hm hp
  exact ⟨rfl, rfl, rfl⟩

/-- Witness of C2 at the request `GET /` with the clock at 0. -/
theorem root_status_and_content_type_witness :
    getRoot.method = "GET" ∧ getRoot.path = "/"
      ∧ (respond ⟨0, fun t => toString t⟩ getRoot).statusCode = 200
      ∧ (respond ⟨0, fun t => toString t⟩ getRoot).header "Content-Type" = some "text/html" :=
  ⟨rfl, rfl, (root_status_and_content_type ⟨0, fun t => toString t⟩ getRoot rfl rfl).2⟩

/-- C3, as stated, fails: with `PORT="abc"` or `PORT="80.5"`, neither of them integer text,
the port passed to `listen` is that text and not the default 3000. -/
theorem invalid_port_not_default :
    isIntegerText "abc" = false ∧ (main (envPort "abc")).port = JSValue.str "abc"
      ∧ (main (envPort "abc")).port ≠ JSValue.num 3000
      ∧ isIntegerText "80.5" = false ∧ (main (envPort "80.5")).port = JSValue.str "80.5"
      ∧ (main (envPort "80.5")).port ≠ JSValue.num 3000 := by
  decide

/-- C3, amended: when `PORT` is present and is not integer text, the port passed to `listen`
is the default 3000 only for the empty text, and is the text itself, unchanged, for every
non-empty one. -/
theorem invalid_port_passed_through (env : Env) (s : String)
    (hs : env "PORT" = some s) (_hbad : isIntegerText s = false) :
    (main env).port = if s = "" then JSValue.num 3000 else JSValue.str s := by
  show PORT env = _
  rw [PORT_eq, hs]

/-- Witness of the amended C3 at `PORT="abc"`. -/
theorem invalid_port_passed_through_witness :
    envPort "abc" "PORT" = some "abc" ∧ isIntegerText "abc" = false
      ∧ (main (envPort "abc")).port = JSValue.str "abc" :=
  ⟨rfl, by decide, invalid_port_passed_through (envPort "abc") "abc" rfl (by decide)⟩

/-- C4: when `PORT` is unset, the port passed to `listen` is the number 3000. -/
theorem unset_port_is_default (env : Env) (h : env "PORT" = none) :
    (main env).port = JSValue.num 3000 := by
  show PORT env = _
  rw [PORT_eq, h]

/-- Witness of C4 at the empty environment. -/
theorem unset_port_is_default_witness :
    envEmpty "PORT" = none ∧ (main envEmpty).port = JSValue.num 3000 :=
  ⟨rfl, unset_port_is_default envEmpty rfl⟩

/-- C5, as stated, fails: with `PORT=8080` the port passed to `listen` is not the integer
8080. -/
theorem port_8080_not_integer : (main (envPort "8080")).port ≠ JSValue.num 8080 := by
  decide

/-- C5, amended: when `PORT` is set to 8080, the port passed to `listen` is the raw
environment text "8080", a string and not a number, together with the host "0.0.0.0". -/
theorem port_8080_is_text (env : Env) (h : env "PORT" = some "8080") :
    (main env).port = JSValue.str "8080" ∧ (main env).port.toJSString = "8080"
      ∧ (∀ n : Int, (main env).port ≠ JSValue.num n) ∧ (main env).host = "0.0.0.0" := by
  have hp : (main env).port = JSValue.str "8080" := by
    show PORT env = _
    rw [PORT_eq, h]
    decide
  refine ⟨hp, ?_, ?_, rfl⟩
  · rw [hp]
    rfl
  · intro n
    rw [hp]
    exact fun hn => JSValue.noConfusion hn

/-- Witness of the amended C5 at the environment that sets only `PORT=8080`. -/
theorem port_8080_is_text_witness :
    envPort "8080" "PORT" = some "8080" ∧ (main (envPort "8080")).port = JSValue.str "8080" :=
  ⟨rfl, (port_8080_is_text (envPort "8080") rfl).1⟩

/-- C6: the body sent by the root handler is the fixed text `templateHead`, then the rendered
timestamp, then the fixed text `templateTail`; `templateHead` holds the heading
`<h1>HNG13 Stage 1 DevOps Task</h1>`, the author line, the contact line and the deployment
line in that order, each on its own line, and ends with `<p>Timestamp: `. -/
theorem root_body_skeleton :
    (∀ (rt : Runtime) (req : Request) (res : Response),
        (rootHandler rt req res).body = some (templateHead ++ rt.timestamp ++ templateTail))
      ∧ (∀ ts : String, template ts = templateHead ++ ts ++ templateTail)
      ∧ ∃ a : String, templateHead = a
          ++ "<h1>HNG13 Stage 1 DevOps Task</h1>" ++ "\n        "
          ++ "<p>Name: Chuye Princely Tata</p>" ++ "\n        "
          ++ "<p>Slack Username: @PrincelyT</p>" ++ "\n        "
          ++ "<p>Application successfully deployed!</p>" ++ "\n        "
          ++ "<p>Timestamp: " :=
  ⟨fun _ _ _ => rfl, fun _ => rfl,
    String.join (templateHeadLines.take 26) ++ "        ", head_content_block⟩

/-- C7: the timestamp field of a body sent by the root handler is the rendering of the clock
reading of that very invocation; hence two requests whose times the formatter renders
differently get different timestamp fields and different bodies. -/
theorem timestamp_tracks_request_time (fmt : Int → String) (t₁ t₂ : Int)
    (req₁ req₂ : Request) (res₁ res₂ : Response) (h : fmt t₁ ≠ fmt t₂) :
    ∃ b₁ b₂ : String,
      (rootHandler ⟨t₁, fmt⟩ req₁ res₁).body = some b₁
        ∧ (rootHandler ⟨t₂, fmt⟩ req₂ res₂).body = some b₂
        ∧ timestampField b₁ = fmt t₁ ∧ timestampField b₂ = fmt t₂
        ∧ timestampField b₁ ≠ timestampField b₂ ∧ b₁ ≠ b₂ := by
  refine ⟨template (fmt t₁), template (fmt t₂), rfl, rfl,
    timestampField_template _, timestampField_template _, ?_, ?_⟩
  · rw [timestampField_template, timestampField_template]
    exact h
  · exact fun hb => h (template_injective _ _ hb)

/-- Witness of C7 at the clock readings 0 and 1 with the decimal rendering. -/
theorem timestamp_tracks_request_time_witness :
    toString (0 : Int) ≠ toString (1 : Int)
      ∧ ∃ b₁ b₂ : String,
        (rootHandler ⟨0, fun t => toString t⟩ getRoot Response.fresh).body = some b₁
          ∧ (rootHandler ⟨1, fun t => toString t⟩ getRoot Response.fresh).body = some b₂
          ∧ timestampField b₁ = toString (0 : Int) ∧ timestampField b₂ = toString (1 : Int)
          ∧ timestampField b₁ ≠ timestampField b₂ ∧ b₁ ≠ b₂ :=
  ⟨by decide, timestamp_tracks_request_time (fun t => toString t) 0 1 getRoot getRoot
    Response.fresh Response.fresh (by decide)⟩

/-- C8: the application registers exactly one route, `GET` on path "/"; a request whose path
is not "/" is accepted by no registered route and is answered with the not-found status. -/
theorem unmatched_path_not_found (rt : Runtime) (req : Request) (h : req.path ≠ "/") :
    app.map (fun r => (r.method, r.path)) = [("GET", "/")]
      ∧ (∀ r ∈ app, r.accepts req = false)
      ∧ (respond rt req).statusCode = 404 := by
  have hno : ∀ r ∈ app, r.accepts req = false := by
    intro r hr
    simp only [app, List.mem_singleton] at hr
    subst hr
    cases hacc : Route.accepts { method := "GET", path := "/", handler := rootHandler } req with
    | false => rfl
    | true => exact absurd (accepts_path _ _ hacc).symm h
  refine ⟨rfl, hno, ?_⟩
  have hfind : app.find? (fun r => r.accepts req) = none := by
    rw [List.find?_eq_none]
    intro r hr
    simp [hno r hr]
  simp only [respond, dispatch, hfind]

/-- Witness of C8 at the request `GET /nonexistent`. -/
theorem unmatched_path_not_found_witness :
    (⟨"GET", "/nonexistent"⟩ : Request).path ≠ "/"
      ∧ (respond ⟨0, fun t => toString t⟩ ⟨"GET", "/nonexistent"⟩).statusCode = 404 :=
  ⟨by decide,
    (unmatched_path_not_found ⟨0, fun t => toString t⟩ ⟨"GET", "/nonexistent"⟩
      (by decide)).2.2⟩

/-- C9: a successful startup writes exactly one log line; the `listen` call gets the host
"0.0.0.0" and the resolved port, and the line is "Server running on port " followed by that
same port: "Server running on port 3000" when `PORT` is absent or empty, where the port is
the number 3000, and "Server running on port " followed by the text of `PORT` otherwise,
where the port is that text. -/
theorem startup_log_line (env : Env) :
    (main env).host = "0.0.0.0"
      ∧ (startupLog env).length = 1
      ∧ startupLog env = (main env).callback ()
      ∧ ((main env).port, startupLog env) = match env "PORT" with
        | none => (JSValue.num 3000, ["Server running on port 3000"])
        | some s =>
          if s = "" then (JSValue.num 3000, ["Server running on port 3000"])
          else (JSValue.str s, ["Server running on port " ++ s]) := by
  refine ⟨rfl, rfl, rfl, ?_⟩
  have hport : (main env).port = PORT env := rfl
  have hlog : startupLog env = ["Server running on port " ++ (PORT env).toJSString] := rfl
  rw [hport, hlog, PORT_eq]
  cases env "PORT" with
  | none => rfl
  | some s =>
    by_cases hs : s = ""
    · simp only [hs, if_true]
      rfl
    · simp only [hs, if_false]
      rfl

/-- C10: port resolution is the falsy fallback and nothing else: an absent or empty `PORT`
resolves to the number 3000, and every non-empty `PORT` text resolves to that text itself,
whatever it holds; the resolved value is passed to `listen` as it is. -/
theorem port_resolution_falsy_fallback (env : Env) :
    (main env).port = PORT env
      ∧ PORT env = match env "PORT" with
        | none => JSValue.num 3000
        | some s => if s = "" then JSValue.num 3000 else JSValue.str s :=
  ⟨rfl, PORT_eq env⟩

end App
